import Mathlib

/-!
Verification development for the dynamic-role-prediction feature-engineering
components: the player-awareness scorer, the player-influence scorer, and the
bounded Voronoi area computation.

The scorers (`player_awareness.py`, `player_influence.py`) are closed-form
formulas over real arithmetic; they are embedded over `ℝ` with `Real.cos`,
`Real.exp`, `Real.sqrt`, an explicit `arctan2`, and a Python-style
floating modulo `npMod` (which returns a result with the sign of the divisor).

The Voronoi component (`voronoi_diagram.py`) is embedded structurally over `ℚ`.
Its two external geometry collaborators are passed in as explicit functions:
`voronoiFn` stands for `scipy.spatial.Voronoi` (which may fail, e.g. on too few
input sites) and `clipAreaFn` stands for the shapely polygon-intersection area
`poly.intersection(box_polygon).area` (returning 0 for an empty intersection).
Everything the repository code itself does — boundary filtering, the mirrored
ghost points, the region loop, the scatter back into the full-length output —
is modelled exactly.
-/

/-! ### Shared angle primitives -/

/-- Python / numpy floating modulo `x % y`: the result has the sign of the
divisor, `x % y = x - y * floor (x / y)`. -/
noncomputable def npMod (x y : ℝ) : ℝ := x - y * (⌊x / y⌋ : ℤ)

/-- `np.radians`: degrees to radians. -/
noncomputable def radians (d : ℝ) : ℝ := d * (Real.pi / 180)

/-- `np.arctan2 y x`: the angle of the point `(x, y)`, in `(-π, π]`, with the
numpy convention `arctan2 0 0 = 0`. -/
noncomputable def arctan2 (y x : ℝ) : ℝ :=
  if 0 < x then Real.arctan (y / x)
  else if x < 0 ∧ 0 ≤ y then Real.arctan (y / x) + Real.pi
  else if x < 0 ∧ y < 0 then Real.arctan (y / x) - Real.pi
  else if x = 0 ∧ 0 < y then Real.pi / 2
  else if x = 0 ∧ y < 0 then -(Real.pi / 2)
  else 0

/-- `convert_angle` as written identically in `PlayerAwarenessCalculator` and
`PlayerInfluenceCalculator`: switch from the counter-clockwise-from-+x
convention to the clockwise-from-+y field convention, normalized with the
numpy modulo: `((π/2) - angle) % (2π)`. -/
noncomputable def convert_angle (angle : ℝ) : ℝ :=
  npMod (Real.pi / 2 - angle) (2 * Real.pi)

/-! ### PlayerAwarenessCalculator (`player_awareness.py`) -/

structure PlayerAwarenessCalculator where
  beta : ℝ
  alpha : ℝ
  /-- stored halved and converted to radians by `__init__`. -/
  field_of_view : ℝ

/-- `PlayerAwarenessCalculator.__init__`: `field_of_view` is given in degrees
and stored as `np.radians(field_of_view / 2)`. -/
noncomputable def PlayerAwarenessCalculator.init
    (beta alpha field_of_view : ℝ) : PlayerAwarenessCalculator :=
  ⟨beta, alpha, radians (field_of_view / 2)⟩

/-- The angle offset computed inside `calculate_awareness` (lines 49-53):
bearing to the target in field convention, absolute difference with the
player orientation (degrees converted to radians), folded by
`min(angle_offset, 2π - angle_offset)`. -/
noncomputable def awareness_angle_offset (x y o p_x p_y : ℝ) : ℝ :=
  let angle_to_target := convert_angle (arctan2 (p_y - y) (p_x - x))
  let player_orientation := radians o
  let a := |player_orientation - angle_to_target|
  min a (2 * Real.pi - a)

/-- `calculate_awareness`: single player / single target awareness score. -/
noncomputable def calculate_awareness
    (c : PlayerAwarenessCalculator) (x y o s p_x p_y : ℝ) : ℝ :=
  let dx := p_x - x
  let dy := p_y - y
  let distance := Real.sqrt (dx ^ 2 + dy ^ 2)
  let angle_offset := awareness_angle_offset x y o p_x p_y
  if angle_offset > c.field_of_view then 0
  else max 0 ((1 + c.alpha * s) * Real.exp (-c.beta * distance) * Real.cos angle_offset)

/-- `calculate_awareness_batch`: players as `(x, y)` positions paired with
`(o, s)` attributes, targets as `(p_x, p_y)`; entry `(i, j)` follows the
batch code: compute the score, zero it outside the field of view
(`awareness[~in_fov_mask] = 0`), then clamp with `np.maximum(0, ·)`. -/
noncomputable def calculate_awareness_batch
    (c : PlayerAwarenessCalculator) (positions attributes : List (ℝ × ℝ))
    (targets : List (ℝ × ℝ)) : List (List ℝ) :=
  List.zipWith (fun pos attr =>
    targets.map (fun tgt =>
      let dx := tgt.1 - pos.1
      let dy := tgt.2 - pos.2
      let distance := Real.sqrt (dx ^ 2 + dy ^ 2)
      let angle_to_target := convert_angle (arctan2 dy dx)
      let player_orientation := radians attr.1
      let a := |player_orientation - angle_to_target|
      let angle_offset := min a (2 * Real.pi - a)
      let awareness := (1 + c.alpha * attr.2) * Real.exp (-c.beta * distance)
        * Real.cos angle_offset
      let masked := if angle_offset ≤ c.field_of_view then awareness else 0
      max 0 masked))
    positions attributes

/-! ### PlayerInfluenceCalculator (`player_influence.py`) -/

structure PlayerInfluenceCalculator where
  beta : ℝ
  alpha : ℝ

def PlayerInfluenceCalculator.init (beta alpha : ℝ) : PlayerInfluenceCalculator :=
  ⟨beta, alpha⟩

/-- `calculate_influence`: single player / single target influence score. -/
noncomputable def calculate_influence
    (c : PlayerInfluenceCalculator) (x y dir o s p_x p_y : ℝ) : ℝ :=
  let dx := p_x - x
  let dy := p_y - y
  let distance := Real.sqrt (dx ^ 2 + dy ^ 2)
  let angle_dir := radians dir - convert_angle (arctan2 dy dx)
  let angle_o := radians o - convert_angle (arctan2 dy dx)
  (2 + 0.7 * Real.cos angle_dir + 0.3 * Real.cos angle_o)
    * (1 + c.alpha * s) * Real.exp (-c.beta * distance)

/-- `calculate_influence_batch`: players as positions paired with
`(dir, o, s)` attributes; entry `(i, j)` follows the vectorized code. -/
noncomputable def calculate_influence_batch
    (c : PlayerInfluenceCalculator) (positions : List (ℝ × ℝ))
    (attributes : List (ℝ × ℝ × ℝ)) (targets : List (ℝ × ℝ)) : List (List ℝ) :=
  List.zipWith (fun pos attr =>
    targets.map (fun tgt =>
      let dx := tgt.1 - pos.1
      let dy := tgt.2 - pos.2
      let distance := Real.sqrt (dx ^ 2 + dy ^ 2)
      let angle_to_target := convert_angle (arctan2 dy dx)
      let angle_dir := radians attr.1 - angle_to_target
      let angle_o := radians attr.2.1 - angle_to_target
      (2 + 0.7 * Real.cos angle_dir + 0.3 * Real.cos angle_o)
        * (1 + c.alpha * attr.2.2) * Real.exp (-c.beta * distance)))
    positions attributes

/-! ### VoronoiDiagram (`voronoi_diagram.py`) -/

/-- The fields of a `scipy.spatial.Voronoi` result that
`compute_voronoi_areas` consumes: `point_region` maps each input site to a
region index, `regions` lists vertex indices (with `-1` marking an open
region), `vertices` are the Voronoi vertices. -/
structure Tess where
  point_region : List Nat
  regions : List (List Int)
  vertices : List (ℚ × ℚ)
deriving DecidableEq

/-- Python exceptions relevant to the Voronoi component: `ValueError` raised
by the repository code itself, and errors raised inside the external geometry
libraries (scipy / qhull). -/
inductive PyError where
  | valueError (msg : String)
  | geometryError (msg : String)
deriving DecidableEq

structure VoronoiDiagram where
  bounding_box : ℚ × ℚ × ℚ × ℚ
  vor : Option Tess
deriving DecidableEq

/-- `VoronoiDiagram.__init__`: stores the bounding box, no tessellation yet.
The default box in the source is `(0, 120, 0, 53.3)`. -/
def VoronoiDiagram.init (bounding_box : ℚ × ℚ × ℚ × ℚ) : VoronoiDiagram :=
  ⟨bounding_box, none⟩

/-- The in-boundary mask of `compute_voronoi_areas` (inclusive bounds). -/
def in_box (bb : ℚ × ℚ × ℚ × ℚ) (p : ℚ × ℚ) : Bool :=
  match bb with
  | (x_min, x_max, y_min, y_max) =>
    decide (x_min ≤ p.1) && decide (p.1 ≤ x_max)
      && decide (y_min ≤ p.2) && decide (p.2 ≤ y_max)

/-- `filtered_points = points[in_box]`. -/
def filtered_points (bb : ℚ × ℚ × ℚ × ℚ) (points : List (ℚ × ℚ)) : List (ℚ × ℚ) :=
  points.filter (fun p => in_box bb p)

/-- The `np.vstack` of the filtered points with their four mirror images
across the box edges, in source order. -/
def mirrored_points (bb : ℚ × ℚ × ℚ × ℚ) (points : List (ℚ × ℚ)) : List (ℚ × ℚ) :=
  match bb with
  | (x_min, x_max, y_min, y_max) =>
    let fp := filtered_points bb points
    fp ++ fp.map (fun p => (2 * x_min - p.1, p.2))
       ++ fp.map (fun p => (2 * x_max - p.1, p.2))
       ++ fp.map (fun p => (p.1, 2 * y_min - p.2))
       ++ fp.map (fun p => (p.1, 2 * y_max - p.2))

/-- The area-assignment loop of `compute_voronoi_areas`:
`areas = np.zeros(len(points))`, then for each filtered site `i` (Python
iterates `vor.point_region[:len(filtered_points)]`) look up its region, skip
open (`-1 ∈ region`) or empty regions, otherwise clip the region polygon to
the box (`clipAreaFn`) and scatter the area to the original index
`np.where(in_box)[0][i]`. -/
def voronoi_area_loop (clipAreaFn : (ℚ × ℚ × ℚ × ℚ) → List (ℚ × ℚ) → ℚ)
    (bb : ℚ × ℚ × ℚ × ℚ) (vor : Tess) (points : List (ℚ × ℚ)) : List ℚ :=
  (List.range (min vor.point_region.length (filtered_points bb points).length)).foldl
    (fun areas i =>
      let region := vor.regions.getD (vor.point_region.getD i 0) []
      if (-1 : Int) ∈ region ∨ region = [] then areas
      else areas.set
        (((List.range points.length).filter
            (fun k => in_box bb (points.getD k (0, 0)))).getD i 0)
        (clipAreaFn bb (region.map (fun k => vor.vertices.getD k.toNat (0, 0)))))
    (List.replicate points.length 0)

/-- `compute_voronoi_areas`: filter to the box, build the mirrored sites, run
the external tessellation (`voronoiFn`, standing for
`scipy.spatial.Voronoi`), cache it in `self.vor`, and run the area loop.  An
error raised by the geometry library propagates unchanged; the source
performs no check of its own on the number of in-boundary points. -/
def compute_voronoi_areas (voronoiFn : List (ℚ × ℚ) → Except PyError Tess)
    (clipAreaFn : (ℚ × ℚ × ℚ × ℚ) → List (ℚ × ℚ) → ℚ)
    (vd : VoronoiDiagram) (points : List (ℚ × ℚ)) :
    Except PyError (VoronoiDiagram × List ℚ) :=
  match voronoiFn (mirrored_points vd.bounding_box points) with
  | Except.error e => Except.error e
  | Except.ok vor =>
      Except.ok (⟨vd.bounding_box, some vor⟩,
        voronoi_area_loop clipAreaFn vd.bounding_box vor points)

/-- `plot_voronoi`: raises `ValueError` in the uncomputed state; the
rendering itself is an external side effect with no computed value. -/
def plot_voronoi (vd : VoronoiDiagram) : Except PyError Unit :=
  match vd.vor with
  | none => Except.error (PyError.valueError
      "Voronoi diagram has not been computed. Run compute_voronoi_areas first.")
  | some _ => Except.ok ()

/-- The operations available on a `VoronoiDiagram` instance, for stating
state invariants across call sequences. -/
inductive VorOp where
  | compute (voronoiFn : List (ℚ × ℚ) → Except PyError Tess)
      (clipAreaFn : (ℚ × ℚ × ℚ × ℚ) → List (ℚ × ℚ) → ℚ)
      (points : List (ℚ × ℚ))
  | plot

/-- The state transition of one operation.  `compute_voronoi_areas` assigns
`self.vor` only after `Voronoi(mirrored)` has succeeded, so a failing call
leaves the instance unchanged; `plot_voronoi` never mutates the instance. -/
def run_op (vd : VoronoiDiagram) : VorOp → VoronoiDiagram
  | VorOp.compute vf cf pts =>
      match compute_voronoi_areas vf cf vd pts with
      | Except.ok (vd', _) => vd'
      | Except.error _ => vd
  | VorOp.plot => vd

/-! ### Helper lemmas: angle arithmetic -/

theorem npMod_nonneg (x y : ℝ) (hy : 0 < y) : 0 ≤ npMod x y := by
  have h1 : ((⌊x / y⌋ : ℤ) : ℝ) ≤ x / y := Int.floor_le _
  have h3 : ((⌊x / y⌋ : ℤ) : ℝ) * y ≤ x := (le_div_iff₀ hy).mp h1
  unfold npMod
  nlinarith

theorem npMod_lt (x y : ℝ) (hy : 0 < y) : npMod x y < y := by
  have h2 : x / y < (⌊x / y⌋ : ℤ) + 1 := Int.lt_floor_add_one _
  have h4 : x < (((⌊x / y⌋ : ℤ) : ℝ) + 1) * y := (div_lt_iff₀ hy).mp h2
  unfold npMod
  nlinarith

theorem convert_angle_nonneg (a : ℝ) : 0 ≤ convert_angle a :=
  npMod_nonneg _ _ Real.two_pi_pos

theorem convert_angle_lt (a : ℝ) : convert_angle a < 2 * Real.pi :=
  npMod_lt _ _ Real.two_pi_pos

theorem npMod_zero_left (y : ℝ) : npMod 0 y = 0 := by
  simp [npMod]

theorem npMod_pi_two_pi : npMod Real.pi (2 * Real.pi) = Real.pi := by
  have hhalf : Real.pi / (2 * Real.pi) = 1 / 2 := by
    rw [mul_comm, div_mul_eq_div_div, div_self Real.pi_ne_zero]
  have hfloor : ⌊Real.pi / (2 * Real.pi)⌋ = 0 := by
    rw [hhalf, Int.floor_eq_zero_iff]
    constructor <;> norm_num
  unfold npMod
  rw [hfloor]
  simp

theorem arctan2_zero_pos (y : ℝ) (hy : 0 < y) : arctan2 y 0 = Real.pi / 2 := by
  simp [arctan2, hy, lt_irrefl, not_lt.mpr hy.le]

theorem arctan2_zero_neg (y : ℝ) (hy : y < 0) : arctan2 y 0 = -(Real.pi / 2) := by
  simp [arctan2, hy, lt_irrefl, not_lt_of_lt hy, asymm hy]

theorem convert_angle_pi_div_two : convert_angle (Real.pi / 2) = 0 := by
  unfold convert_angle
  rw [sub_self, npMod_zero_left]

theorem convert_angle_neg_pi_div_two :
    convert_angle (-(Real.pi / 2)) = Real.pi := by
  unfold convert_angle
  rw [sub_neg_eq_add, add_halves, npMod_pi_two_pi]

theorem radians_zero : radians 0 = 0 := by simp [radians]

theorem radians_720 : radians 720 = 4 * Real.pi := by
  unfold radians
  ring

theorem radians_nonneg (d : ℝ) (hd : 0 ≤ d) : 0 ≤ radians d :=
  mul_nonneg hd (by positivity)

theorem radians_lt_two_pi (d : ℝ) (hd : d < 360) : radians d < 2 * Real.pi := by
  unfold radians
  have h : d * (Real.pi / 180) < 360 * (Real.pi / 180) :=
    mul_lt_mul_of_pos_right hd (by positivity)
  calc d * (Real.pi / 180) < 360 * (Real.pi / 180) := h
    _ = 2 * Real.pi := by ring

/-! ### Helper lemmas: awareness and influence -/

theorem calculate_awareness_nonneg (c : PlayerAwarenessCalculator)
    (x y o s p_x p_y : ℝ) : 0 ≤ calculate_awareness c x y o s p_x p_y := by
  by_cases h : awareness_angle_offset x y o p_x p_y > c.field_of_view
  · simp [calculate_awareness, h]
  · simp [calculate_awareness, h]

theorem influence_bracket_bounds (a b : ℝ) :
    1 ≤ 2 + 0.7 * Real.cos a + 0.3 * Real.cos b
      ∧ 2 + 0.7 * Real.cos a + 0.3 * Real.cos b ≤ 3 := by
  have ha1 := Real.neg_one_le_cos a
  have ha2 := Real.cos_le_one a
  have hb1 := Real.neg_one_le_cos b
  have hb2 := Real.cos_le_one b
  constructor <;> nlinarith

theorem calculate_influence_pos (c : PlayerInfluenceCalculator)
    (x y dir o s p_x p_y : ℝ) (ha : 0 ≤ c.alpha) (hs : 0 ≤ s) :
    0 < calculate_influence c x y dir o s p_x p_y := by
  unfold calculate_influence
  have hbr := influence_bracket_bounds
    (radians dir - convert_angle (arctan2 (p_y - y) (p_x - x)))
    (radians o - convert_angle (arctan2 (p_y - y) (p_x - x)))
  have hsp : 0 < 1 + c.alpha * s := by nlinarith [mul_nonneg ha hs]
  exact mul_pos (mul_pos (by linarith [hbr.1]) hsp) (Real.exp_pos _)

/-! ### Helper lemmas: lists and the Voronoi area loop -/

theorem foldl_invariant_mem {α β : Type} (P : α → Prop) (f : α → β → α) :
    ∀ (l : List β) (a : α), P a → (∀ x b, b ∈ l → P x → P (f x b)) →
      P (l.foldl f a) := by
  intro l
  induction l with
  | nil => intro a h _; simpa using h
  | cons b t ih =>
      intro a h hstep
      simp only [List.foldl_cons]
      exact ih (f a b) (hstep a b (List.mem_cons_self _ _) h)
        (fun x b' hb' hx => hstep x b' (List.mem_cons_of_mem _ hb') hx)

theorem length_filter_range_getD {α : Type} (p : α → Bool) (d : α) :
    ∀ l : List α,
      ((List.range l.length).filter (fun i => p (l.getD i d))).length
        = (l.filter p).length := by
  intro l
  induction l with
  | nil => simp
  | cons a t ih =>
      rw [List.length_cons, List.range_succ_eq_map, List.filter_cons,
        List.filter_map, List.filter_cons]
      simp only [List.getD_cons_zero, Function.comp_def, List.getD_cons_succ]
      by_cases hpa : p a = true
      · simp only [List.getD_eq_getElem?_getD] at ih
        simp [hpa, ih]
      · simp only [List.getD_eq_getElem?_getD] at ih
        simp [hpa, ih]

theorem voronoi_area_loop_length (cf : (ℚ × ℚ × ℚ × ℚ) → List (ℚ × ℚ) → ℚ)
    (bb : ℚ × ℚ × ℚ × ℚ) (vor : Tess) (points : List (ℚ × ℚ)) :
    (voronoi_area_loop cf bb vor points).length = points.length := by
  unfold voronoi_area_loop
  refine foldl_invariant_mem (fun areas : List ℚ => areas.length = points.length) _ _ _ ?_ ?_
  · dsimp only
    simp
  · intro areas i _ hP
    dsimp only
    split
    · exact hP
    · rw [List.length_set]; exact hP

theorem voronoi_area_loop_getD_zero (cf : (ℚ × ℚ × ℚ × ℚ) → List (ℚ × ℚ) → ℚ)
    (bb : ℚ × ℚ × ℚ × ℚ) (vor : Tess) (points : List (ℚ × ℚ)) (j : ℕ)
    (hbox : in_box bb (points.getD j (0, 0)) = false) :
    (voronoi_area_loop cf bb vor points).getD j 0 = 0 := by
  have hlen : ((List.range points.length).filter
      (fun k => in_box bb (points.getD k (0, 0)))).length
      = (filtered_points bb points).length :=
    length_filter_range_getD (fun q => in_box bb q) (0, 0) points
  unfold voronoi_area_loop
  refine foldl_invariant_mem (fun areas : List ℚ => areas.getD j 0 = 0) _ _ _ ?_ ?_
  · dsimp only
    rw [List.getD_eq_getElem?_getD, List.getElem?_replicate]
    split <;> simp
  · intro areas i hi hP
    dsimp only
    split
    · exact hP
    · have hii : i < ((List.range points.length).filter
          (fun k => in_box bb (points.getD k (0, 0)))).length := by
        rw [hlen]
        exact lt_of_lt_of_le (List.mem_range.mp hi) (min_le_right _ _)
      have hmem : ((List.range points.length).filter
          (fun k => in_box bb (points.getD k (0, 0)))).getD i 0
          ∈ (List.range points.length).filter
            (fun k => in_box bb (points.getD k (0, 0))) := by
        rw [List.getD_eq_getElem _ _ hii]
        exact List.getElem_mem _
      have hbox2 : in_box bb (points.getD
          (((List.range points.length).filter
            (fun k => in_box bb (points.getD k (0, 0)))).getD i 0) (0, 0)) = true :=
        (List.mem_filter.mp hmem).2
      have hne : ((List.range points.length).filter
          (fun k => in_box bb (points.getD k (0, 0)))).getD i 0 ≠ j := by
        intro hcontr
        rw [hcontr, hbox] at hbox2
        cases hbox2
      rw [List.getD_eq_getElem?_getD, List.getElem?_set_ne hne,
        ← List.getD_eq_getElem?_getD]
      exact hP

theorem voronoi_area_loop_nonneg (cf : (ℚ × ℚ × ℚ × ℚ) → List (ℚ × ℚ) → ℚ)
    (bb : ℚ × ℚ × ℚ × ℚ) (vor : Tess) (points : List (ℚ × ℚ))
    (hcf : ∀ bb' poly, 0 ≤ cf bb' poly) :
    ∀ a ∈ voronoi_area_loop cf bb vor points, 0 ≤ a := by
  unfold voronoi_area_loop
  refine foldl_invariant_mem (fun areas : List ℚ => ∀ a ∈ areas, 0 ≤ a) _ _ _ ?_ ?_
  · dsimp only
    intro a ha
    have := List.eq_of_mem_replicate ha
    simp [this]
  · intro areas i _ hP
    dsimp only
    split
    · exact hP
    · intro a ha
      rcases List.mem_or_eq_of_mem_set ha with h | h
      · exact hP a h
      · rw [h]; exact hcf _ _

theorem compute_voronoi_areas_ok (vf : List (ℚ × ℚ) → Except PyError Tess)
    (cf : (ℚ × ℚ × ℚ × ℚ) → List (ℚ × ℚ) → ℚ)
    (vd : VoronoiDiagram) (points : List (ℚ × ℚ))
    (vd' : VoronoiDiagram) (areas : List ℚ)
    (h : compute_voronoi_areas vf cf vd points = Except.ok (vd', areas)) :
    ∃ vor, vf (mirrored_points vd.bounding_box points) = Except.ok vor
      ∧ vd' = ⟨vd.bounding_box, some vor⟩
      ∧ areas = voronoi_area_loop cf vd.bounding_box vor points := by
  unfold compute_voronoi_areas at h
  cases hv : vf (mirrored_points vd.bounding_box points) with
  | error e => rw [hv] at h; exact absurd h (by simp)
  | ok vor =>
      rw [hv] at h
      simp only [Except.ok.injEq, Prod.mk.injEq] at h
      exact ⟨vor, rfl, h.1.symm, h.2.symm⟩

theorem mirrored_points_of_filter_nil (bb : ℚ × ℚ × ℚ × ℚ)
    (points : List (ℚ × ℚ)) (h : filtered_points bb points = []) :
    mirrored_points bb points = [] := by
  obtain ⟨x1, x2, y1, y2⟩ := bb
  simp [mirrored_points, h]

/-! ### Helper lemmas: batch versus single-pair scorers -/

theorem map_getD {α γ : Type} (g : α → γ) (d0 : γ) :
    ∀ (l : List α) (j : ℕ) (d : α), j < l.length →
      (l.map g).getD j d0 = g (l.getD j d) := by
  intro l
  induction l with
  | nil => intro j d hj; cases hj
  | cons a t ih =>
      intro j d hj
      cases j with
      | zero => simp
      | succ n =>
          simp only [List.map_cons, List.getD_cons_succ]
          exact ih n d (by simpa using hj)

theorem awareness_batch_eq_map (c : PlayerAwarenessCalculator)
    (positions attributes : List (ℝ × ℝ)) (targets : List (ℝ × ℝ)) :
    calculate_awareness_batch c positions attributes targets
      = List.zipWith (fun pos attr => targets.map (fun tgt =>
          calculate_awareness c pos.1 pos.2 attr.1 attr.2 tgt.1 tgt.2))
          positions attributes := by
  unfold calculate_awareness_batch calculate_awareness awareness_angle_offset
  congr 1
  funext pos attr
  congr 1
  funext tgt
  dsimp only
  by_cases h : min |radians attr.1 - convert_angle (arctan2 (tgt.2 - pos.2) (tgt.1 - pos.1))|
      (2 * Real.pi - |radians attr.1 - convert_angle (arctan2 (tgt.2 - pos.2) (tgt.1 - pos.1))|)
      ≤ c.field_of_view
  · rw [if_pos h, if_neg (not_lt.mpr h)]
  · rw [if_neg h, if_pos (lt_of_not_le h)]
    simp

theorem influence_batch_eq_map (c : PlayerInfluenceCalculator)
    (positions : List (ℝ × ℝ)) (attributes : List (ℝ × ℝ × ℝ))
    (targets : List (ℝ × ℝ)) :
    calculate_influence_batch c positions attributes targets
      = List.zipWith (fun pos attr => targets.map (fun tgt =>
          calculate_influence c pos.1 pos.2 attr.1 attr.2.1 attr.2.2 tgt.1 tgt.2))
          positions attributes := rfl

/-! ### Helper lemmas: concrete angle-offset evaluations -/

theorem awareness_offset_behind : awareness_angle_offset 0 0 0 0 (-10) = Real.pi := by
  unfold awareness_angle_offset
  dsimp only
  rw [show (-10 : ℝ) - 0 = -10 by norm_num, sub_zero,
    arctan2_zero_neg (-10) (by norm_num), convert_angle_neg_pi_div_two,
    radians_zero, zero_sub, abs_neg, abs_of_nonneg Real.pi_pos.le,
    show 2 * Real.pi - Real.pi = Real.pi by ring, min_self]

theorem awareness_offset_ahead : awareness_angle_offset 0 0 0 0 10 = 0 := by
  unfold awareness_angle_offset
  dsimp only
  rw [sub_zero, sub_zero, arctan2_zero_pos 10 (by norm_num),
    convert_angle_pi_div_two, radians_zero, sub_zero, abs_zero, sub_zero]
  exact min_eq_left (le_of_lt Real.two_pi_pos)

/-! ### Helper lemmas: VoronoiDiagram state machine -/

theorem run_op_bounding_box (vd : VoronoiDiagram) (op : VorOp) :
    (run_op vd op).bounding_box = vd.bounding_box := by
  cases op with
  | plot => rfl
  | compute vf cf pts =>
      dsimp only [run_op]
      cases hc : compute_voronoi_areas vf cf vd pts with
      | error e => rfl
      | ok res =>
          obtain ⟨vd2, as⟩ := res
          obtain ⟨vor, _, hvd, _⟩ := compute_voronoi_areas_ok vf cf vd pts vd2 as hc
          rw [hvd]

theorem run_op_isSome (vd : VoronoiDiagram) (op : VorOp)
    (h : vd.vor.isSome = true) : (run_op vd op).vor.isSome = true := by
  cases op with
  | plot => exact h
  | compute vf cf pts =>
      dsimp only [run_op]
      cases hc : compute_voronoi_areas vf cf vd pts with
      | error e => exact h
      | ok res =>
          obtain ⟨vd2, as⟩ := res
          obtain ⟨vor, _, hvd, _⟩ := compute_voronoi_areas_ok vf cf vd pts vd2 as hc
          rw [hvd]
          rfl

theorem foldl_run_op_bounding_box (ops : List VorOp) :
    ∀ vd : VoronoiDiagram, (ops.foldl run_op vd).bounding_box = vd.bounding_box := by
  induction ops with
  | nil => intro vd; rfl
  | cons op t ih =>
      intro vd
      simp only [List.foldl_cons]
      rw [ih (run_op vd op), run_op_bounding_box]

theorem foldl_run_op_isSome (ops : List VorOp) :
    ∀ vd : VoronoiDiagram, vd.vor.isSome = true →
      (ops.foldl run_op vd).vor.isSome = true := by
  induction ops with
  | nil => intro vd h; exact h
  | cons op t ih =>
      intro vd h
      simp only [List.foldl_cons]
      exact ih (run_op vd op) (run_op_isSome vd op h)

theorem plot_voronoi_of_isSome (vd : VoronoiDiagram)
    (h : vd.vor.isSome = true) : plot_voronoi vd = Except.ok () := by
  unfold plot_voronoi
  cases hv : vd.vor with
  | none => rw [hv] at h; cases h
  | some t => rfl

/-! ### Claim theorems -/

/-- C1: for every input point list and bounding rectangle, a successful
`compute_voronoi_areas` returns a vector of length exactly N aligned to the
original, unfiltered point order; every point outside the rectangle receives
area 0; and out-of-boundary points are excluded from the filtered site list
from which all tessellation sites (originals plus their four mirror copies)
are built. -/
theorem voronoi_areas_aligned_and_outside_zero
    (vf : List (ℚ × ℚ) → Except PyError Tess)
    (cf : (ℚ × ℚ × ℚ × ℚ) → List (ℚ × ℚ) → ℚ)
    (vd : VoronoiDiagram) (points : List (ℚ × ℚ))
    (vd' : VoronoiDiagram) (areas : List ℚ)
    (h : compute_voronoi_areas vf cf vd points = Except.ok (vd', areas)) :
    areas.length = points.length
    ∧ (∀ j, j < points.length →
        in_box vd.bounding_box (points.getD j (0, 0)) = false →
        areas.getD j 0 = 0)
    ∧ (∀ p ∈ points, in_box vd.bounding_box p = false →
        p ∉ filtered_points vd.bounding_box points)
    ∧ (∃ vor, vf (mirrored_points vd.bounding_box points) = Except.ok vor) := by
  obtain ⟨vor, hvf, _, harea⟩ := compute_voronoi_areas_ok vf cf vd points vd' areas h
  refine ⟨?_, ?_, ?_, vor, hvf⟩
  · rw [harea]
    exact voronoi_area_loop_length cf vd.bounding_box vor points
  · intro j _ hbox
    rw [harea]
    exact voronoi_area_loop_getD_zero cf vd.bounding_box vor points j hbox
  · intro p _ hbox hmem
    have hmem2 := (List.mem_filter.mp hmem).2
    rw [hbox] at hmem2
    cases hmem2

/-- Witness for C1: a two-point input, the second point outside the box; the
returned vector has length 2 and the outside point gets area 0. -/
theorem voronoi_areas_aligned_and_outside_zero_witness :
    compute_voronoi_areas
        (fun _ => Except.ok (Tess.mk [0] [[0, 1, 2]] [(0, 0), (1, 0), (0, 1)]))
        (fun _ _ => 25) (VoronoiDiagram.init (0, 10, 0, 10)) [(5, 5), (-3, 4)]
      = Except.ok
          (⟨(0, 10, 0, 10), some (Tess.mk [0] [[0, 1, 2]] [(0, 0), (1, 0), (0, 1)])⟩,
            [25, 0])
    ∧ ([25, 0] : List ℚ).length = ([(5, 5), (-3, 4)] : List (ℚ × ℚ)).length
    ∧ ([25, 0] : List ℚ).getD 1 0 = 0 := by
  have h : compute_voronoi_areas
      (fun _ => Except.ok (Tess.mk [0] [[0, 1, 2]] [(0, 0), (1, 0), (0, 1)]))
      (fun _ _ => 25) (VoronoiDiagram.init (0, 10, 0, 10)) [(5, 5), (-3, 4)]
      = Except.ok
        (⟨(0, 10, 0, 10), some (Tess.mk [0] [[0, 1, 2]] [(0, 0), (1, 0), (0, 1)])⟩,
          [25, 0]) := by rfl
  have hc := voronoi_areas_aligned_and_outside_zero _ _ _ _ _ _ h
  exact ⟨h, hc.1, hc.2.1 1 (by norm_num) (by decide)⟩

/-- C2 (code bug): when the in-boundary filter leaves no points, the source
calls the external tessellation on the empty mirrored array and propagates
whatever error the geometry library raises, unchanged: there is no
repository-level insufficient-points check, contradicting the documented
failure semantics. -/
theorem insufficient_points_error_passthrough
    (vf : List (ℚ × ℚ) → Except PyError Tess)
    (cf : (ℚ × ℚ × ℚ × ℚ) → List (ℚ × ℚ) → ℚ)
    (vd : VoronoiDiagram) (points : List (ℚ × ℚ)) (e : PyError)
    (hfp : filtered_points vd.bounding_box points = [])
    (hvf : vf [] = Except.error e) :
    compute_voronoi_areas vf cf vd points = Except.error e := by
  unfold compute_voronoi_areas
  rw [mirrored_points_of_filter_nil _ _ hfp, hvf]

/-- Witness for C2: with the default bounding box and a single out-of-bounds
point, the raw qhull-style error of the geometry layer reaches the caller. -/
theorem insufficient_points_error_passthrough_witness :
    compute_voronoi_areas
        (fun sites => if sites.length < 4
          then Except.error (PyError.geometryError "qhull input error: not enough points")
          else Except.ok (Tess.mk [] [] []))
        (fun _ _ => 0) (VoronoiDiagram.init (0, 120, 0, 533/10)) [(-1, -1)]
      = Except.error (PyError.geometryError "qhull input error: not enough points") := by
  apply insufficient_points_error_passthrough
  · decide
  · rfl

/-- C9: invoking `plot_voronoi` in the uncomputed state (before any successful
`compute_voronoi_areas` call, so `vor` is still `None`) fails with a
`ValueError` describing the violated precondition, not a silent no-op. -/
theorem plot_before_compute_errors (vd : VoronoiDiagram) (h : vd.vor = none) :
    plot_voronoi vd = Except.error (PyError.valueError
      "Voronoi diagram has not been computed. Run compute_voronoi_areas first.") := by
  unfold plot_voronoi
  rw [h]

/-- Witness for C9: a freshly constructed instance. -/
theorem plot_before_compute_errors_witness :
    plot_voronoi (VoronoiDiagram.init (0, 120, 0, 533/10))
      = Except.error (PyError.valueError
        "Voronoi diagram has not been computed. Run compute_voronoi_areas first.") :=
  plot_before_compute_errors _ rfl

/-- C10: every operation preserves the construction-time bounding box, and
the computed state is permanent: after a successful `compute_voronoi_areas`
the cached tessellation is non-`None`, it stays non-`None` across every
subsequent sequence of operations (a later failing compute leaves the old
tessellation in place), and every later `plot_voronoi` call passes the
computed-state check. -/
theorem voronoi_state_permanence
    (vf : List (ℚ × ℚ) → Except PyError Tess)
    (cf : (ℚ × ℚ × ℚ × ℚ) → List (ℚ × ℚ) → ℚ)
    (vd : VoronoiDiagram) (points : List (ℚ × ℚ))
    (vd' : VoronoiDiagram) (areas : List ℚ) (ops : List VorOp)
    (h : compute_voronoi_areas vf cf vd points = Except.ok (vd', areas)) :
    vd'.bounding_box = vd.bounding_box
    ∧ vd'.vor.isSome = true
    ∧ (ops.foldl run_op vd').bounding_box = vd.bounding_box
    ∧ (ops.foldl run_op vd').vor.isSome = true
    ∧ plot_voronoi (ops.foldl run_op vd') = Except.ok () := by
  obtain ⟨vor, _, hvd, _⟩ := compute_voronoi_areas_ok vf cf vd points vd' areas h
  have hbb : vd'.bounding_box = vd.bounding_box := by rw [hvd]
  have hsome : vd'.vor.isSome = true := by rw [hvd]; rfl
  have hfbb : (ops.foldl run_op vd').bounding_box = vd.bounding_box := by
    rw [foldl_run_op_bounding_box ops vd', hbb]
  have hfsome : (ops.foldl run_op vd').vor.isSome = true :=
    foldl_run_op_isSome ops vd' hsome
  exact ⟨hbb, hsome, hfbb, hfsome, plot_voronoi_of_isSome _ hfsome⟩

/-- Witness for C10: a successful computation followed by a plot and a
failing recomputation; the tessellation survives and plotting succeeds. -/
theorem voronoi_state_permanence_witness :
    compute_voronoi_areas (fun _ => Except.ok (Tess.mk [] [] []))
        (fun _ _ => 0) (VoronoiDiagram.init (0, 1, 0, 1)) []
      = Except.ok (⟨(0, 1, 0, 1), some (Tess.mk [] [] [])⟩, [])
    ∧ plot_voronoi
        ([VorOp.plot,
          VorOp.compute (fun _ => Except.error (PyError.geometryError "qhull failure"))
            (fun _ _ => 0) []].foldl run_op
          ⟨(0, 1, 0, 1), some (Tess.mk [] [] [])⟩)
      = Except.ok () := by
  have h : compute_voronoi_areas (fun _ => Except.ok (Tess.mk [] [] []))
      (fun _ _ => 0) (VoronoiDiagram.init (0, 1, 0, 1)) []
      = Except.ok (⟨(0, 1, 0, 1), some (Tess.mk [] [] [])⟩, []) := by rfl
  exact ⟨h, (voronoi_state_permanence _ _ _ _ _ _
    [VorOp.plot,
      VorOp.compute (fun _ => Except.error (PyError.geometryError "qhull failure"))
        (fun _ _ => 0) []] h).2.2.2.2⟩

/-- C7: the angle converter returns exactly `(π/2 − angle) mod 2π` (spelled
out as the Python float modulo, subtracting `2π` times the floor of the
quotient), and the output always lies in `[0, 2π)`, for every real input
angle including negative ones; the function is total. -/
theorem convert_angle_formula_and_range (angle : ℝ) :
    convert_angle angle
      = (Real.pi / 2 - angle)
        - 2 * Real.pi * (⌊(Real.pi / 2 - angle) / (2 * Real.pi)⌋ : ℤ)
    ∧ 0 ≤ convert_angle angle ∧ convert_angle angle < 2 * Real.pi :=
  ⟨rfl, convert_angle_nonneg angle, convert_angle_lt angle⟩

/-- C5 counterexample: with orientation o = 720 degrees, agent at the origin
and the target straight up the y-axis (bearing 0 in field convention), the
folded angle offset of the awareness scorer is `min 4π (2π − 4π) = −2π < 0`,
so the offset does not lie in `[0, π]` for every caller-supplied
orientation. -/
theorem awareness_angle_offset_out_of_range :
    awareness_angle_offset 0 0 720 0 10 < 0 := by
  have hpi := Real.pi_pos
  unfold awareness_angle_offset
  dsimp only
  rw [sub_zero, sub_zero, arctan2_zero_pos 10 (by norm_num),
    convert_angle_pi_div_two, radians_720, sub_zero,
    abs_of_nonneg (by positivity)]
  have hle : 2 * Real.pi - 4 * Real.pi ≤ 4 * Real.pi := by linarith
  rw [min_eq_right hle]
  linarith

/-- C5 amended: for every agent position and target position, and every
orientation o in degrees with 0 ≤ o < 360 (so that `radians o` lies in
`[0, 2π)` just as the converted bearing does), the folded angle offset
computed by the awareness scorer lies in `[0, π]`. -/
theorem awareness_angle_offset_mem_Icc (x y o p_x p_y : ℝ)
    (h0 : 0 ≤ o) (h1 : o < 360) :
    0 ≤ awareness_angle_offset x y o p_x p_y
      ∧ awareness_angle_offset x y o p_x p_y ≤ Real.pi := by
  unfold awareness_angle_offset
  dsimp only
  set b := convert_angle (arctan2 (p_y - y) (p_x - x)) with hb
  have hb0 : 0 ≤ b := convert_angle_nonneg _
  have hb1 : b < 2 * Real.pi := convert_angle_lt _
  have ho0 : 0 ≤ radians o := radians_nonneg o h0
  have ho1 : radians o < 2 * Real.pi := radians_lt_two_pi o h1
  have ha : |radians o - b| < 2 * Real.pi := by
    rw [abs_lt]
    constructor <;> linarith
  have ha0 : 0 ≤ |radians o - b| := abs_nonneg _
  constructor
  · exact le_min ha0 (by linarith)
  · rcases le_or_lt |radians o - b| Real.pi with h | h
    · exact le_trans (min_le_left _ _) h
    · exact le_trans (min_le_right _ _) (by linarith)

/-- Witness for the amended C5 at a concrete in-range orientation. -/
theorem awareness_angle_offset_mem_Icc_witness :
    ((0 : ℝ) ≤ 90 ∧ (90 : ℝ) < 360)
    ∧ 0 ≤ awareness_angle_offset 0 0 90 0 10
    ∧ awareness_angle_offset 0 0 90 0 10 ≤ Real.pi := by
  have h := awareness_angle_offset_mem_Icc 0 0 90 0 10 (by norm_num) (by norm_num)
  exact ⟨⟨by norm_num, by norm_num⟩, h.1, h.2⟩

/-- C4: the awareness field-of-view gate is a hard cutoff at half the
configured FOV (stored as `radians (fov / 2)`): any offset strictly beyond
it scores exactly 0.  With `field_of_view = 180` the stored half-FOV is
`π/2`; a target exactly behind the agent (offset `π`) scores 0, and a target
exactly ahead (offset 0) scores exactly `(1 + alpha·s) · exp (−beta·d)`. -/
theorem awareness_fov_hard_cutoff (beta alpha fov x y o s p_x p_y : ℝ)
    (hs : 0 ≤ alpha * s) :
    (awareness_angle_offset x y o p_x p_y > radians (fov / 2) →
      calculate_awareness (PlayerAwarenessCalculator.init beta alpha fov)
        x y o s p_x p_y = 0)
    ∧ (PlayerAwarenessCalculator.init beta alpha 180).field_of_view = Real.pi / 2
    ∧ (awareness_angle_offset x y o p_x p_y = Real.pi →
      calculate_awareness (PlayerAwarenessCalculator.init beta alpha 180)
        x y o s p_x p_y = 0)
    ∧ (awareness_angle_offset x y o p_x p_y = 0 →
      calculate_awareness (PlayerAwarenessCalculator.init beta alpha 180)
        x y o s p_x p_y
        = (1 + alpha * s)
          * Real.exp (-beta * Real.sqrt ((p_x - x) ^ 2 + (p_y - y) ^ 2))) := by
  have hfov : (PlayerAwarenessCalculator.init beta alpha 180).field_of_view
      = Real.pi / 2 := by
    show radians (180 / 2) = Real.pi / 2
    unfold radians
    ring
  have hfov' : (PlayerAwarenessCalculator.init beta alpha fov).field_of_view
      = radians (fov / 2) := rfl
  have halpha : (PlayerAwarenessCalculator.init beta alpha 180).alpha = alpha := rfl
  have hbeta : (PlayerAwarenessCalculator.init beta alpha 180).beta = beta := rfl
  refine ⟨?_, hfov, ?_, ?_⟩
  · intro h
    unfold calculate_awareness
    dsimp only
    rw [hfov', if_pos h]
  · intro h
    unfold calculate_awareness
    dsimp only
    rw [hfov, h, if_pos (by linarith [Real.pi_pos])]
  · intro h
    unfold calculate_awareness
    dsimp only
    rw [hfov, h, if_neg (not_lt.mpr (by positivity)), Real.cos_zero, mul_one,
      halpha, hbeta]
    exact max_eq_right (mul_nonneg (by linarith) (Real.exp_pos _).le)

/-- Witness for C4: with the default configuration and FOV 180, a target
directly behind scores 0 and a target directly ahead scores the unclamped
maximum. -/
theorem awareness_fov_hard_cutoff_witness :
    calculate_awareness (PlayerAwarenessCalculator.init 0.04 0.1 180)
        0 0 0 0 0 (-10) = 0
    ∧ calculate_awareness (PlayerAwarenessCalculator.init 0.04 0.1 180)
        0 0 0 0 0 10
      = (1 + 0.1 * 0)
        * Real.exp (-0.04 * Real.sqrt ((0 - 0) ^ 2 + (10 - 0) ^ 2)) := by
  have h1 := awareness_fov_hard_cutoff 0.04 0.1 180 0 0 0 0 0 (-10) (by norm_num)
  have h2 := awareness_fov_hard_cutoff 0.04 0.1 180 0 0 0 0 0 10 (by norm_num)
  exact ⟨h1.2.2.1 awareness_offset_behind, h2.2.2.2 awareness_offset_ahead⟩

/-- C6: the influence score equals exactly
`(2 + 0.7·cos(angle_dir) + 0.3·cos(angle_o)) · (1 + alpha·s) · exp(−beta·d)`
with the raw (unfolded) angle differences against the field-convention
bearing; the bracket stays in `[1, 3]`, and for nonnegative `alpha` and
speed the score is strictly positive — there is no field-of-view gate. -/
theorem influence_formula_and_positivity (c : PlayerInfluenceCalculator)
    (x y dir o s p_x p_y : ℝ) (ha : 0 ≤ c.alpha) (hs : 0 ≤ s) :
    calculate_influence c x y dir o s p_x p_y
      = (2 + 0.7 * Real.cos (radians dir
            - convert_angle (arctan2 (p_y - y) (p_x - x)))
          + 0.3 * Real.cos (radians o
            - convert_angle (arctan2 (p_y - y) (p_x - x))))
        * (1 + c.alpha * s)
        * Real.exp (-c.beta * Real.sqrt ((p_x - x) ^ 2 + (p_y - y) ^ 2))
    ∧ 1 ≤ 2 + 0.7 * Real.cos (radians dir
            - convert_angle (arctan2 (p_y - y) (p_x - x)))
          + 0.3 * Real.cos (radians o
            - convert_angle (arctan2 (p_y - y) (p_x - x)))
    ∧ 2 + 0.7 * Real.cos (radians dir
            - convert_angle (arctan2 (p_y - y) (p_x - x)))
          + 0.3 * Real.cos (radians o
            - convert_angle (arctan2 (p_y - y) (p_x - x))) ≤ 3
    ∧ 0 < calculate_influence c x y dir o s p_x p_y :=
  ⟨rfl, (influence_bracket_bounds _ _).1, (influence_bracket_bounds _ _).2,
    calculate_influence_pos c x y dir o s p_x p_y ha hs⟩

/-- Witness for C6: default configuration, stationary agent at the origin,
target at (3, 4): the score is strictly positive. -/
theorem influence_formula_and_positivity_witness :
    ((0 : ℝ) ≤ (PlayerInfluenceCalculator.init 0.075 0.1).alpha ∧ (0 : ℝ) ≤ 0)
    ∧ 0 < calculate_influence (PlayerInfluenceCalculator.init 0.075 0.1)
        0 0 0 0 0 3 4 := by
  have ha : (0 : ℝ) ≤ (PlayerInfluenceCalculator.init 0.075 0.1).alpha := by
    show (0 : ℝ) ≤ 0.1
    norm_num
  exact ⟨⟨ha, le_refl 0⟩,
    (influence_formula_and_positivity (PlayerInfluenceCalculator.init 0.075 0.1)
      0 0 0 0 0 3 4 ha (le_refl 0)).2.2.2⟩

/-- C3: the single-pair and batched forms agree exactly: entry `(i, j)` of
`calculate_awareness_batch` equals `calculate_awareness` on player `i` and
target `j`, and entry `(i, j)` of `calculate_influence_batch` equals
`calculate_influence` on player `i` and target `j`. -/
theorem batch_matches_single (cA : PlayerAwarenessCalculator)
    (cI : PlayerInfluenceCalculator)
    (positions : List (ℝ × ℝ)) (attrsA : List (ℝ × ℝ))
    (attrsI : List (ℝ × ℝ × ℝ)) (targets : List (ℝ × ℝ)) (i j : ℕ)
    (hi : i < positions.length) (hA : attrsA.length = positions.length)
    (hI : attrsI.length = positions.length) (hj : j < targets.length) :
    ((calculate_awareness_batch cA positions attrsA targets).getD i []).getD j 0
      = calculate_awareness cA (positions.getD i (0, 0)).1
          (positions.getD i (0, 0)).2 (attrsA.getD i (0, 0)).1
          (attrsA.getD i (0, 0)).2 (targets.getD j (0, 0)).1
          (targets.getD j (0, 0)).2
    ∧ ((calculate_influence_batch cI positions attrsI targets).getD i []).getD j 0
      = calculate_influence cI (positions.getD i (0, 0)).1
          (positions.getD i (0, 0)).2 (attrsI.getD i (0, 0, 0)).1
          (attrsI.getD i (0, 0, 0)).2.1 (attrsI.getD i (0, 0, 0)).2.2
          (targets.getD j (0, 0)).1 (targets.getD j (0, 0)).2 := by
  have hiA : i < attrsA.length := by rw [hA]; exact hi
  have hiI : i < attrsI.length := by rw [hI]; exact hi
  constructor
  · rw [awareness_batch_eq_map]
    have hiz : i < (List.zipWith (fun pos attr => targets.map (fun tgt =>
        calculate_awareness cA pos.1 pos.2 attr.1 attr.2 tgt.1 tgt.2))
        positions attrsA).length := by
      rw [List.length_zipWith, hA, min_self]
      exact hi
    rw [List.getD_eq_getElem _ _ hiz, List.getElem_zipWith]
    rw [map_getD _ 0 targets j (0, 0) hj,
      List.getD_eq_getElem positions (0, 0) hi,
      List.getD_eq_getElem attrsA (0, 0) hiA]
  · rw [influence_batch_eq_map]
    have hiz : i < (List.zipWith (fun pos attr => targets.map (fun tgt =>
        calculate_influence cI pos.1 pos.2 attr.1 attr.2.1 attr.2.2 tgt.1 tgt.2))
        positions attrsI).length := by
      rw [List.length_zipWith, hI, min_self]
      exact hi
    rw [List.getD_eq_getElem _ _ hiz, List.getElem_zipWith]
    rw [map_getD _ 0 targets j (0, 0) hj,
      List.getD_eq_getElem positions (0, 0) hi,
      List.getD_eq_getElem attrsI (0, 0, 0) hiI]

/-- Witness for C3 on singleton player and target lists. -/
theorem batch_matches_single_witness :
    ((calculate_awareness_batch (PlayerAwarenessCalculator.init 0.04 0.1 180)
        [(1, 2)] [(45, 3)] [(7, 5)]).getD 0 []).getD 0 0
      = calculate_awareness (PlayerAwarenessCalculator.init 0.04 0.1 180)
          1 2 45 3 7 5
    ∧ ((calculate_influence_batch (PlayerInfluenceCalculator.init 0.075 0.1)
        [(1, 2)] [(30, 45, 3)] [(7, 5)]).getD 0 []).getD 0 0
      = calculate_influence (PlayerInfluenceCalculator.init 0.075 0.1)
          1 2 30 45 3 7 5 := by
  have h := batch_matches_single (PlayerAwarenessCalculator.init 0.04 0.1 180)
    (PlayerInfluenceCalculator.init 0.075 0.1)
    [(1, 2)] [(45, 3)] [(30, 45, 3)] [(7, 5)] 0 0
    (by simp) rfl rfl (by simp)
  simp only [List.getD_cons_zero] at h
  exact h

/-- C8: for all valid inputs every awareness score is nonnegative, every
influence score is nonnegative (given nonnegative `alpha` and speed), and
every Voronoi cell area returned by a successful `compute_voronoi_areas`
call is nonnegative (given that the polygon-clipping oracle returns
nonnegative areas, as shapely does). -/
theorem scores_and_areas_nonneg (cA : PlayerAwarenessCalculator)
    (cI : PlayerInfluenceCalculator) (x y o dir s p_x p_y : ℝ)
    (vf : List (ℚ × ℚ) → Except PyError Tess)
    (cf : (ℚ × ℚ × ℚ × ℚ) → List (ℚ × ℚ) → ℚ)
    (vd : VoronoiDiagram) (points : List (ℚ × ℚ))
    (vd' : VoronoiDiagram) (areas : List ℚ)
    (ha : 0 ≤ cI.alpha) (hs : 0 ≤ s)
    (hcf : ∀ bb poly, 0 ≤ cf bb poly)
    (hok : compute_voronoi_areas vf cf vd points = Except.ok (vd', areas)) :
    0 ≤ calculate_awareness cA x y o s p_x p_y
    ∧ 0 ≤ calculate_influence cI x y dir o s p_x p_y
    ∧ ∀ a ∈ areas, 0 ≤ a := by
  obtain ⟨vor, _, _, harea⟩ := compute_voronoi_areas_ok vf cf vd points vd' areas hok
  refine ⟨calculate_awareness_nonneg cA x y o s p_x p_y,
    (calculate_influence_pos cI x y dir o s p_x p_y ha hs).le, ?_⟩
  rw [harea]
  exact voronoi_area_loop_nonneg cf vd.bounding_box vor points hcf

/-- Witness for C8 at concrete configurations, agent states, and a concrete
successful Voronoi computation. -/
theorem scores_and_areas_nonneg_witness :
    compute_voronoi_areas
        (fun _ => Except.ok (Tess.mk [0] [[0, 1, 2]] [(0, 0), (2, 0), (0, 2)]))
        (fun _ _ => 2) (VoronoiDiagram.init (0, 4, 0, 4)) [(1, 1)]
      = Except.ok
          (⟨(0, 4, 0, 4), some (Tess.mk [0] [[0, 1, 2]] [(0, 0), (2, 0), (0, 2)])⟩,
            [2])
    ∧ 0 ≤ calculate_awareness (PlayerAwarenessCalculator.init 0.04 0.1 180)
        0 0 0 0 3 4
    ∧ 0 ≤ calculate_influence (PlayerInfluenceCalculator.init 0.075 0.1)
        0 0 0 0 0 3 4
    ∧ ∀ a ∈ ([2] : List ℚ), 0 ≤ a := by
  have hok : compute_voronoi_areas
      (fun _ => Except.ok (Tess.mk [0] [[0, 1, 2]] [(0, 0), (2, 0), (0, 2)]))
      (fun _ _ => 2) (VoronoiDiagram.init (0, 4, 0, 4)) [(1, 1)]
      = Except.ok
        (⟨(0, 4, 0, 4), some (Tess.mk [0] [[0, 1, 2]] [(0, 0), (2, 0), (0, 2)])⟩,
          [2]) := by rfl
  have ha : (0 : ℝ) ≤ (PlayerInfluenceCalculator.init 0.075 0.1).alpha := by
    show (0 : ℝ) ≤ 0.1
    norm_num
  have h := scores_and_areas_nonneg (PlayerAwarenessCalculator.init 0.04 0.1 180)
    (PlayerInfluenceCalculator.init 0.075 0.1) 0 0 0 0 0 3 4 _ _ _ _ _ _
    ha (le_refl 0) (fun _ _ => by norm_num) hok
  exact ⟨hok, h.1, h.2.1, h.2.2⟩
